import Mathlib

/-!
# Verification of the frog incident-correlation core

Shallow embedding of the core pipeline (`src/core/timeline.ts`,
`src/core/pattern-engine.ts`, `src/core/correlator.ts`,
`src/core/query-filter.ts`) and proofs of its specified properties.

Modelling conventions:
* `Date` timestamps become `Int` milliseconds (`Date.getTime()`).
* JavaScript object identity of events (used by the clusterer to exclude a
  trigger from its own cascade via `candidate !== event`) is modelled by an
  explicit identity field `eid` carried by every event, as the spec's design
  notes suggest for value-oriented reimplementations.
* The open `metadata: Record<string, unknown>` bag is an association list of
  string keys to scalar JSON values; the core only ever inspects scalar keys
  (`retry`, `status`, `statusCode`, `jobName`) and serializes the bag.
* `Array.prototype.sort` with the numeric timestamp comparator is a stable
  ascending sort; a stable sort's output is unique, so it is modelled by the
  stable, kernel-evaluable `List.insertionSort`.
* Confidence scores are `ℚ` (`mkRat 87 100` for the JS literal 0.87, and so
  on), written as explicit rationals so the kernel can evaluate them.
-/

/-- A scalar JSON value stored in an event's metadata bag. -/
inductive JVal where
  | jNull : JVal
  | jBool : Bool → JVal
  | jNum : Int → JVal
  | jStr : String → JVal
deriving DecidableEq, Repr

/-- Event severity (`"info" | "warn" | "error"` in `types.ts`). -/
inductive Severity where
  | info : Severity
  | warn : Severity
  | error : Severity
deriving DecidableEq, Repr

/-- `NormalizedEvent` from `types.ts`. `eid` models JS object identity
(position of the event object in the originating feed); `source` is kept as a
plain string since the core only ever concatenates it into a haystack. -/
structure NormalizedEvent where
  eid : Nat
  source : String
  type : String
  severity : Severity
  timestamp : Int
  metadata : List (String × JVal)
deriving DecidableEq, Repr

/-- `IncidentCluster` from `types.ts`, window endpoints as millisecond times. -/
structure IncidentCluster where
  triggerEvent : NormalizedEvent
  cascade : List NormalizedEvent
  windowStart : Int
  windowEnd : Int
deriving DecidableEq, Repr

/-- `PatternId` from `types.ts`. -/
inductive PatternId where
  | SERVERLESS_TIMEOUT_CASCADE : PatternId
  | RETRY_STORM : PatternId
  | DEPLOY_FAILURE : PatternId
  | CRASH_LOOP : PatternId
deriving DecidableEq, Repr

/-- The per-rule `metadata: Record<string, unknown>` of a `PatternMatch`.
Each rule builds exactly one record shape, so the open bag is embedded as a
tagged variant holding those literal fields. -/
inductive MatchMeta where
  | timeoutMeta (retryCount : Nat) (restartDetected : Bool) : MatchMeta
  | retryStormMeta (retries : Nat) (jobs : List String) : MatchMeta
  | deployMeta (deployEventType : String) (errorCount : Nat) : MatchMeta
  | crashMeta (restartCount : Nat) : MatchMeta
deriving DecidableEq, Repr

/-- `PatternMatch` from `types.ts`. -/
structure PatternMatch where
  patternId : PatternId
  rootCauseEvent : NormalizedEvent
  evidence : List NormalizedEvent
  confidence : ℚ
  metadata : MatchMeta
deriving DecidableEq, Repr

/-- `IncidentReport` from `correlator.ts`; the source field `match` is a Lean
keyword and is named `pmatch` here. -/
structure IncidentReport where
  cluster : IncidentCluster
  pmatch : PatternMatch
  timeline : List NormalizedEvent
deriving DecidableEq, Repr

/-! ## String helpers (JS `toLowerCase` / `includes` / `startsWith`) -/

/-- Is `pre` a leading segment of `l`? (char-list core of JS `startsWith`). -/
def isPrefixB : List Char → List Char → Bool
  | [], _ => true
  | _ :: _, [] => false
  | a :: as, b :: bs => a == b && isPrefixB as bs

/-- Does `needle` occur contiguously inside `hay`? -/
def subSearch (needle : List Char) : List Char → Bool
  | [] => isPrefixB needle []
  | c :: rest => isPrefixB needle (c :: rest) || subSearch needle rest

/-- JS `hay.includes(needle)`. -/
def containsSub (hay needle : String) : Bool :=
  subSearch needle.data hay.data

/-- JS `s.toLowerCase()` (ASCII letters; no event type or query in scope uses
non-ASCII case). Implemented on the character list so the kernel can
evaluate it. -/
def strToLower (s : String) : String :=
  String.mk (s.data.map Char.toLower)

/-- JS `s.trim()`: strip leading and trailing whitespace. -/
def jsTrim (s : String) : String :=
  String.mk (((s.data.dropWhile Char.isWhitespace).reverse.dropWhile
    Char.isWhitespace).reverse)

/-- JS `hay.startsWith(needle)`. -/
def startsWithB (hay needle : String) : Bool :=
  isPrefixB needle.data hay.data

/-- JS property lookup `obj[key]` on the metadata bag (first binding wins,
`none` models `undefined`). -/
def lookupMeta (m : List (String × JVal)) (k : String) : Option JVal :=
  List.lookup k m

/-- JS `String(v)` on a scalar metadata value. -/
def jvalToString : JVal → String
  | .jNull => "null"
  | .jBool true => "true"
  | .jBool false => "false"
  | .jNum n => toString n
  | .jStr s => s

/-! ## Timeline clusterer (`timeline.ts`) -/

/-- `CLUSTER_WINDOW_MS = 15 * 60 * 1000`. -/
def CLUSTER_WINDOW_MS : Int := 15 * 60 * 1000

/-- `[...events].sort((a, b) => a.timestamp.getTime() - b.timestamp.getTime())`:
a stable ascending sort by timestamp of a fresh copy. A stable sort's output
is uniquely determined by its input, so the JS sort is modelled by the stable
`List.insertionSort` (structurally recursive, hence kernel-evaluable). -/
def sortByTimestamp (events : List NormalizedEvent) : List NormalizedEvent :=
  List.insertionSort (fun a b => a.timestamp ≤ b.timestamp) events

/-- `buildIncidentClusters` from `timeline.ts`: every `warn`/`error` event of
the sorted feed becomes a trigger; its cascade is every other event (by
identity) at most 15 minutes after it. -/
def buildIncidentClusters (events : List NormalizedEvent) : List IncidentCluster :=
  let sorted := sortByTimestamp events
  (sorted.filter fun event =>
      event.severity == Severity.error || event.severity == Severity.warn).map
    fun event =>
      let cascade := sorted.filter fun candidate =>
        let offset := candidate.timestamp - event.timestamp
        decide (0 ≤ offset) && decide (offset ≤ CLUSTER_WINDOW_MS) &&
          candidate.eid != event.eid
      { triggerEvent := event
        cascade := cascade
        windowStart := event.timestamp
        windowEnd :=
          match cascade.getLast? with
          | some last => last.timestamp
          | none => event.timestamp }

/-! ## Pattern engine (`pattern-engine.ts`) -/

/-- `isRetry`: type contains "retry" or metadata flag `retry === true`. -/
def isRetry (event : NormalizedEvent) : Bool :=
  containsSub (strToLower event.type) "retry" ||
    lookupMeta event.metadata "retry" == some (.jBool true)

/-- `isRestart`: type contains "restart" or "duplicate execution". -/
def isRestart (event : NormalizedEvent) : Bool :=
  containsSub (strToLower event.type) "restart" ||
    containsSub (strToLower event.type) "duplicate execution"

/-- `String(event.metadata?.statusCode ?? "")`. -/
def statusCodeString (event : NormalizedEvent) : String :=
  match lookupMeta event.metadata "statusCode" with
  | none => ""
  | some .jNull => ""
  | some v => jvalToString v

/-- `isExternal429`: metadata `status === 429` or `statusCode` rendering
starting with "429". -/
def isExternal429 (event : NormalizedEvent) : Bool :=
  lookupMeta event.metadata "status" == some (.jNum 429) ||
    startsWithB (statusCodeString event) "429"

/-- `String(event.metadata.jobName ?? "unknown")`. -/
def jobNameOf (event : NormalizedEvent) : String :=
  match lookupMeta event.metadata "jobName" with
  | none => "unknown"
  | some .jNull => "unknown"
  | some v => jvalToString v

/-- One step of the JS `groupBy` reduce: append `e` to the bucket of key `k`,
creating the bucket at the end on first sight (object key insertion order). -/
def groupInsert (acc : List (String × List NormalizedEvent)) (k : String)
    (e : NormalizedEvent) : List (String × List NormalizedEvent) :=
  match acc with
  | [] => [(k, [e])]
  | (k0, es) :: rest =>
    if k0 = k then (k0, es ++ [e]) :: rest else (k0, es) :: groupInsert rest k e

/-- `groupBy(list, select)` from `pattern-engine.ts`. -/
def groupBy (list : List NormalizedEvent) (select : NormalizedEvent → String) :
    List (String × List NormalizedEvent) :=
  list.foldl (fun acc e => groupInsert acc (select e) e) []

/-- `buildMatch` from `pattern-engine.ts`. -/
def buildMatch (patternId : PatternId) (rootCauseEvent : NormalizedEvent)
    (evidence : List NormalizedEvent) (confidence : ℚ) (metadata : MatchMeta) :
    PatternMatch :=
  { patternId := patternId
    rootCauseEvent := rootCauseEvent
    evidence := evidence
    confidence := confidence
    metadata := metadata }

/-- Rule 1, `matchServerlessTimeoutCascade`. -/
def matchServerlessTimeoutCascade (cluster : IncidentCluster) : Option PatternMatch :=
  let triggerEvent := cluster.triggerEvent
  let cascade := cluster.cascade
  if !containsSub (strToLower triggerEvent.type) "timeout" then none
  else
    let evidence := triggerEvent ::
      cascade.filter fun event => isRetry event || isRestart event || isExternal429 event
    let hasRetry := cascade.any isRetry
    let hasRestart := cascade.any isRestart
    if !hasRetry then none
    else
      let confidence : ℚ := if hasRestart then mkRat 87 100 else mkRat 82 100
      some (buildMatch .SERVERLESS_TIMEOUT_CASCADE triggerEvent evidence confidence
        (.timeoutMeta (cascade.filter isRetry).length hasRestart))

/-- Rule 2, `matchRetryStorm`. -/
def matchRetryStorm (cluster : IncidentCluster) : Option PatternMatch :=
  let retries := cluster.cascade.filter fun event => isRetry event
  if h : retries.length < 3 then none
  else
    let grouped := groupBy retries fun event => jobNameOf event
    let hasBusyJob := (grouped.map Prod.snd).any fun jobs => decide (3 ≤ jobs.length)
    if !hasBusyJob then none
    else
      let root := retries.head (List.length_pos.mp (by omega))
      let evidence := retries.take 5
      some (buildMatch .RETRY_STORM root evidence (mkRat 74 100)
        (.retryStormMeta retries.length (grouped.map Prod.fst)))

/-- Rule 3, `matchDeployFailure`. -/
def matchDeployFailure (cluster : IncidentCluster) : Option PatternMatch :=
  let timeline := cluster.triggerEvent :: cluster.cascade
  match timeline.find? (fun event => containsSub (strToLower event.type) "deploy") with
  | none => none
  | some deployEvent =>
    let errorsAfterDeployment := timeline.filter fun event =>
      decide (deployEvent.timestamp ≤ event.timestamp) &&
        event.severity == Severity.error
    if errorsAfterDeployment.length = 0 then none
    else
      some (buildMatch .DEPLOY_FAILURE deployEvent errorsAfterDeployment (mkRat 72 100)
        (.deployMeta deployEvent.type errorsAfterDeployment.length))

/-- Rule 4, `matchCrashLoop`. -/
def matchCrashLoop (cluster : IncidentCluster) : Option PatternMatch :=
  let restarts := cluster.cascade.filter fun event => isRestart event
  if h : restarts.length < 2 then none
  else
    let root := restarts.head (List.length_pos.mp (by omega))
    let evidence := restarts.take 3
    some (buildMatch .CRASH_LOOP root evidence (mkRat 66 100) (.crashMeta restarts.length))

/-- The ordered rule list `patternMatchers`. -/
def patternMatchers : List (IncidentCluster → Option PatternMatch) :=
  [matchServerlessTimeoutCascade, matchRetryStorm, matchDeployFailure, matchCrashLoop]

/-- `matchPattern`: first rule in `patternMatchers` that fires. -/
def matchPattern (cluster : IncidentCluster) : Option PatternMatch :=
  patternMatchers.findSome? fun matcher => matcher cluster

/-! ## Correlator (`correlator.ts`) -/

/-- `correlateEvents`: sorted full timeline, clusters from the original feed,
first cluster with a pattern match wins. -/
def correlateEvents (events : List NormalizedEvent) : Option IncidentReport :=
  let sortedTimeline := sortByTimestamp events
  let clusters := buildIncidentClusters events
  clusters.findSome? fun cluster =>
    (matchPattern cluster).map fun m =>
      { cluster := cluster, pmatch := m, timeline := sortedTimeline }

/-! ## Mutation model for the frame claims

The two entry points receive the caller's array. Each JS step that touches an
array is made explicit: `[...events]` allocates a fresh array with the same
contents, and `.sort` reorders only the array it is called on. The functions
below return the pair (result, caller's array after the call). -/

/-- `[...a]`: a fresh array holding the same elements in the same order. -/
def jsArrayCopy (a : List NormalizedEvent) : List NormalizedEvent := a

/-- `buildIncidentClusters` together with the state of the caller's array
after the call: the sort happens on the spread copy, so the input array is
handed back untouched. -/
def buildIncidentClustersProc (events : List NormalizedEvent) :
    List IncidentCluster × List NormalizedEvent :=
  let copy := jsArrayCopy events
  let sorted := List.insertionSort (fun a b => a.timestamp ≤ b.timestamp) copy
  ((sorted.filter fun event =>
      event.severity == Severity.error || event.severity == Severity.warn).map
    (fun event =>
      let cascade := sorted.filter fun candidate =>
        let offset := candidate.timestamp - event.timestamp
        decide (0 ≤ offset) && decide (offset ≤ CLUSTER_WINDOW_MS) &&
          candidate.eid != event.eid
      { triggerEvent := event
        cascade := cascade
        windowStart := event.timestamp
        windowEnd :=
          match cascade.getLast? with
          | some last => last.timestamp
          | none => event.timestamp }),
    events)

/-- `correlateEvents` together with the state of the caller's array after the
call: its own sort also happens on a spread copy, and the clusterer returns
the array unchanged. -/
def correlateEventsProc (events : List NormalizedEvent) :
    Option IncidentReport × List NormalizedEvent :=
  let copy := jsArrayCopy events
  let sortedTimeline := List.insertionSort (fun a b => a.timestamp ≤ b.timestamp) copy
  let clustersAndState := buildIncidentClustersProc events
  (clustersAndState.1.findSome? fun cluster =>
      (matchPattern cluster).map fun m =>
        { cluster := cluster, pmatch := m, timeline := sortedTimeline },
    clustersAndState.2)

/-! ## Query filter (`query-filter.ts`) -/

/-- `MIN_TERM_LENGTH = 3`. -/
def MIN_TERM_LENGTH : Nat := 3

/-- The character class `[a-z0-9]` of the splitting regex. -/
def isAlnumLower (c : Char) : Bool :=
  ('a' ≤ c && c ≤ 'z') || ('0' ≤ c && c ≤ '9')

/-- Splitting on runs of non-`[a-z0-9]` characters: emit the maximal alnum
runs in order. (The JS split can additionally yield empty boundary fragments;
those are removed by the length filter either way.) -/
def splitRunsAux (cur : List Char) : List Char → List String
  | [] => if cur = [] then [] else [String.mk cur.reverse]
  | c :: rest =>
    if isAlnumLower c then splitRunsAux (c :: cur) rest
    else (if cur = [] then [] else [String.mk cur.reverse]) ++ splitRunsAux [] rest

/-- `query.split(/[^a-z0-9]+/g)` restricted to its non-empty fragments. -/
def splitNonAlnum (s : String) : List String :=
  splitRunsAux [] s.data

/-- `extractQueryTerms` from `query-filter.ts`. -/
def extractQueryTerms (query : String) : List String :=
  ((splitNonAlnum (strToLower query)).map fun term => jsTrim term).filter
    fun term => decide (MIN_TERM_LENGTH ≤ term.length)

/-- The rendering of severity used by `serializeEvent`. -/
def severityStr : Severity → String
  | .info => "info"
  | .warn => "warn"
  | .error => "error"

/-- JSON string escaping (quote and backslash; the control-character escapes
of full JSON never arise in the inputs considered here). -/
def jsonEscape (s : String) : String :=
  String.mk (s.data.flatMap fun c =>
    if c = '"' then ['\\', '"']
    else if c = '\\' then ['\\', '\\']
    else [c])

/-- `JSON.stringify` of a scalar metadata value. -/
def jvalJson : JVal → String
  | .jNull => "null"
  | .jBool true => "true"
  | .jBool false => "false"
  | .jNum n => toString n
  | .jStr s => "\"" ++ jsonEscape s ++ "\""

/-- `JSON.stringify` of the metadata bag (keys in insertion order). -/
def jsonStringify (m : List (String × JVal)) : String :=
  "\x7b" ++
    String.intercalate ","
      (m.map fun kv => "\"" ++ jsonEscape kv.1 ++ "\":" ++ jvalJson kv.2) ++
    "\x7d"

/-- `serializeEvent` from `query-filter.ts`. -/
def serializeEvent (event : NormalizedEvent) : String :=
  strToLower (String.intercalate " "
    [event.type, event.source, severityStr event.severity,
      jsonStringify event.metadata])

/-- `filterEventsByQuery` from `query-filter.ts` (`query?: string` becomes an
`Option String`; `!normalizedQuery` is the empty-string test). -/
def filterEventsByQuery (events : List NormalizedEvent) (query : Option String) :
    List NormalizedEvent :=
  match query.map jsTrim with
  | none => events
  | some normalizedQuery =>
    if normalizedQuery.data.isEmpty then events
    else
      let terms := extractQueryTerms normalizedQuery
      if terms.isEmpty then events
      else
        events.filter fun event =>
          let haystack := serializeEvent event
          let matchCount := (terms.filter fun term => containsSub haystack term).length
          let requiredMatches := min 2 terms.length
          decide (requiredMatches ≤ matchCount)

/-- The Query Filter keep-rule as the spec words it: the haystack must contain
at least `min(2, number of terms)` **distinct** query terms. Stated from the
spec for comparison with `filterEventsByQuery`, which counts matching terms
with multiplicity. -/
def specFilterEventsByQuery (events : List NormalizedEvent) (query : Option String) :
    List NormalizedEvent :=
  match query.map jsTrim with
  | none => events
  | some normalizedQuery =>
    if normalizedQuery.data.isEmpty then events
    else
      let terms := extractQueryTerms normalizedQuery
      if terms.isEmpty then events
      else
        events.filter fun event =>
          let haystack := serializeEvent event
          let distinctCount :=
            (terms.dedup.filter fun term => containsSub haystack term).length
          decide (min 2 terms.length ≤ distinctCount)

/-! ## Invariant of the clusterer's output -/

/-- The clustering invariant stated by the spec: only `warn`/`error` triggers,
cascade inside the inclusive 15-minute window after the trigger and excluding
the trigger itself, cascade in ascending timestamp order, and the window
endpoints derived from the trigger and the last cascade member. -/
def ClusterWellFormed (cl : IncidentCluster) : Prop :=
  (cl.triggerEvent.severity = Severity.warn ∨ cl.triggerEvent.severity = Severity.error) ∧
  (∀ e ∈ cl.cascade,
    cl.triggerEvent.timestamp ≤ e.timestamp ∧
    e.timestamp ≤ cl.triggerEvent.timestamp + CLUSTER_WINDOW_MS ∧
    e.eid ≠ cl.triggerEvent.eid) ∧
  cl.triggerEvent ∉ cl.cascade ∧
  cl.cascade.Pairwise (fun a b => a.timestamp ≤ b.timestamp) ∧
  cl.windowStart = cl.triggerEvent.timestamp ∧
  (cl.cascade = [] → cl.windowEnd = cl.windowStart) ∧
  (∀ last, cl.cascade.getLast? = some last → cl.windowEnd = last.timestamp)

/-! ## Concrete inputs used by scenario theorems and witnesses -/

/-- Scenario A trigger: an `error` `lambda.timeout` at t0. -/
def evTimeout : NormalizedEvent := ⟨0, "local", "lambda.timeout", .error, 0, []⟩

/-- Scenario A cascade member at t0+2min. -/
def evJobRetry : NormalizedEvent := ⟨1, "local", "job.retry", .info, 120000, []⟩

/-- Scenario A cascade member at t0+4min. -/
def evProcRestart : NormalizedEvent := ⟨2, "local", "process.restart", .info, 240000, []⟩

/-- Scenario A feed. -/
def scenarioAEvents : List NormalizedEvent := [evTimeout, evJobRetry, evProcRestart]

/-- The cluster the clusterer emits first on the Scenario A feed. -/
def scenarioACluster : IncidentCluster :=
  ⟨evTimeout, [evJobRetry, evProcRestart], 0, 240000⟩

/-- The report the correlator returns on the Scenario A feed. -/
def scenarioAReport : IncidentReport :=
  ⟨scenarioACluster,
    ⟨.SERVERLESS_TIMEOUT_CASCADE, evTimeout, [evTimeout, evJobRetry, evProcRestart],
      mkRat 87 100, .timeoutMeta 1 true⟩,
    [evTimeout, evJobRetry, evProcRestart]⟩

/-- One of the five Scenario B `queue.retry` events for job `billing-sync`. -/
def retryEvent (eid : Nat) (timestamp : Int) (severity : Severity) : NormalizedEvent :=
  ⟨eid, "trigger", "queue.retry", severity, timestamp, [("jobName", .jStr "billing-sync")]⟩

/-- Scenario B feed: five `queue.retry` events for `billing-sync` spread over
ten minutes, the earliest one of severity `error`. -/
def scenarioBEvents : List NormalizedEvent :=
  [retryEvent 0 0 .error, retryEvent 1 120000 .info, retryEvent 2 240000 .info,
    retryEvent 3 360000 .info, retryEvent 4 480000 .info]

/-- First of two restarts one minute apart. -/
def evRestartA : NormalizedEvent := ⟨0, "local", "process.restart", .error, 0, []⟩

/-- Second of two restarts one minute apart. -/
def evRestartB : NormalizedEvent := ⟨1, "local", "process.restart", .error, 60000, []⟩

/-- A feed holding exactly two restarts one minute apart and nothing else. -/
def twoRestartEvents : List NormalizedEvent := [evRestartA, evRestartB]

/-- An `error` crash event that qualifies no higher-priority rule. -/
def evCrash : NormalizedEvent := ⟨0, "local", "app.crash", .error, 0, []⟩

/-- Restart one minute after the crash. -/
def evRestart1 : NormalizedEvent := ⟨1, "local", "process.restart", .info, 60000, []⟩

/-- Restart two minutes after the crash. -/
def evRestart2 : NormalizedEvent := ⟨2, "local", "process.restart", .info, 120000, []⟩

/-- Feed with a crash trigger followed by two restarts one minute apart. -/
def crashLoopEvents : List NormalizedEvent := [evCrash, evRestart1, evRestart2]

/-- The cluster the clusterer emits first on `crashLoopEvents`. -/
def crashLoopCluster : IncidentCluster := ⟨evCrash, [evRestart1, evRestart2], 0, 120000⟩

/-- The crash-loop match fired on `crashLoopCluster`. -/
def crashLoopMatch : PatternMatch :=
  ⟨.CRASH_LOOP, evRestart1, [evRestart1, evRestart2], (mkRat 66 100), .crashMeta 2⟩

/-- An `error` trigger before a deployment, with a type matching no rule. -/
def evPreDeployCrash : NormalizedEvent := ⟨0, "local", "app.crash", .error, 0, []⟩

/-- An `info` deployment event one minute after the crash. -/
def evDeploy : NormalizedEvent := ⟨1, "local", "deploy.started", .info, 60000, []⟩

/-- An `error` event one minute after the deployment. -/
def evPostDeployError : NormalizedEvent := ⟨2, "local", "app.error", .error, 120000, []⟩

/-- The cluster the clusterer emits first on the deploy-failure feed. -/
def deployCluster : IncidentCluster :=
  ⟨evPreDeployCrash, [evDeploy, evPostDeployError], 0, 120000⟩

/-- The deploy-failure match fired on `deployCluster`: its root cause is the
deploy event while its evidence starts with the post-deploy error. -/
def deployMatchResult : PatternMatch :=
  ⟨.DEPLOY_FAILURE, evDeploy, [evPostDeployError], (mkRat 72 100), .deployMeta "deploy.started" 1⟩

/-- An event whose haystack contains the fragment "abc" once. -/
def abcEvent : NormalizedEvent := ⟨0, "local", "abc.thing", .info, 0, []⟩

/-- A feed holding only an `info` event, so the clusterer emits no cluster. -/
def infoOnlyEvents : List NormalizedEvent := [⟨0, "local", "app.log", .info, 0, []⟩]

/-! ## Shared lemmas -/

/-- `findSome?` hit characterization: the produced value comes from the first
list element on which the function fires; everything before it yields `none`. -/
theorem findSome?_first {α β : Type} (f : α → Option β) :
    ∀ (l : List α) (b : β), l.findSome? f = some b →
      ∃ i a, l.get? i = some a ∧ f a = some b ∧
        ∀ j, j < i → ∀ a', l.get? j = some a' → f a' = none := by
  intro l
  induction l with
  | nil => intro b h; simp [List.findSome?_nil] at h
  | cons a l ih =>
    intro b h
    rw [List.findSome?_cons] at h
    cases hfa : f a with
    | some b' =>
      rw [hfa] at h
      refine ⟨0, a, rfl, ?_, ?_⟩
      · rw [hfa]; exact h
      · intro j hj; exact absurd hj (Nat.not_lt_zero j)
    | none =>
      rw [hfa] at h
      obtain ⟨i, a', hget, hfa', hprev⟩ := ih b h
      refine ⟨i + 1, a', hget, hfa', ?_⟩
      intro j hj a'' hget''
      match j with
      | 0 =>
        simp only [List.get?] at hget''
        cases hget''
        exact hfa
      | j + 1 =>
        exact hprev j (Nat.lt_of_succ_lt_succ hj) a'' hget''

/-- `matchPattern` is the priority chain of the four detectors. -/
theorem matchPattern_eq (c : IncidentCluster) :
    matchPattern c =
      ((matchServerlessTimeoutCascade c).or ((matchRetryStorm c).or
        ((matchDeployFailure c).or (matchCrashLoop c)))) := by
  simp only [matchPattern, patternMatchers, List.findSome?_cons, List.findSome?_nil]
  cases matchServerlessTimeoutCascade c <;> cases matchRetryStorm c <;>
    cases matchDeployFailure c <;> cases matchCrashLoop c <;> rfl

/-- A fired `matchPattern` comes from one of the four detectors. -/
theorem matchPattern_cases {c : IncidentCluster} {m : PatternMatch}
    (h : matchPattern c = some m) :
    matchServerlessTimeoutCascade c = some m ∨ matchRetryStorm c = some m ∨
      matchDeployFailure c = some m ∨ matchCrashLoop c = some m := by
  rw [matchPattern_eq] at h
  cases h1 : matchServerlessTimeoutCascade c <;> rw [h1] at h
  · cases h2 : matchRetryStorm c <;> rw [h2] at h
    · cases h3 : matchDeployFailure c <;> rw [h3] at h
      · simp only [Option.or_none, Option.none_or] at h
        exact Or.inr (Or.inr (Or.inr h))
      · simp only [Option.or_some, Option.none_or, Option.or] at h
        exact Or.inr (Or.inr (Or.inl h))
    · simp only [Option.none_or, Option.or] at h
      exact Or.inr (Or.inl h)
  · simp only [Option.or] at h
    exact Or.inl h

/-- The timestamp sort is a permutation of the feed. -/
theorem sortByTimestamp_perm (events : List NormalizedEvent) :
    (sortByTimestamp events).Perm events :=
  List.perm_insertionSort _ events

/-- The timestamp sort is non-decreasing. -/
theorem sortByTimestamp_pairwise (events : List NormalizedEvent) :
    (sortByTimestamp events).Pairwise (fun a b => a.timestamp ≤ b.timestamp) := by
  haveI : IsTotal NormalizedEvent (fun a b => a.timestamp ≤ b.timestamp) :=
    ⟨fun a b => Int.le_total a.timestamp b.timestamp⟩
  haveI : IsTrans NormalizedEvent (fun a b => a.timestamp ≤ b.timestamp) :=
    ⟨fun _ _ _ => Int.le_trans⟩
  exact List.sorted_insertionSort _ events

/-- Shape of a successful correlation: the timeline is the sorted feed, the
match fires on the report's cluster, and that cluster is the first cluster of
the emitted list whose pattern match fires. -/
theorem correlateEvents_some {events : List NormalizedEvent} {r : IncidentReport}
    (h : correlateEvents events = some r) :
    r.timeline = sortByTimestamp events ∧ matchPattern r.cluster = some r.pmatch ∧
      ∃ i, (buildIncidentClusters events).get? i = some r.cluster ∧
        ∀ j, j < i → ∀ cl, (buildIncidentClusters events).get? j = some cl →
          matchPattern cl = none := by
  simp only [correlateEvents] at h
  obtain ⟨i, a, hget, hfa, hprev⟩ := findSome?_first _ _ _ h
  cases hm : matchPattern a with
  | none => rw [hm] at hfa; simp at hfa
  | some m =>
    rw [hm] at hfa
    simp only [Option.map_some', Option.some.injEq] at hfa
    subst hfa
    refine ⟨rfl, hm, i, hget, ?_⟩
    intro j hj cl hcl
    have := hprev j hj cl hcl
    exact Option.map_eq_none'.mp this

/-- A correlation returns no report exactly when no cluster's match fires. -/
theorem correlateEvents_eq_none (events : List NormalizedEvent) :
    correlateEvents events = none ↔
      ∀ cl ∈ buildIncidentClusters events, matchPattern cl = none := by
  simp only [correlateEvents, List.findSome?_eq_none_iff, Option.map_eq_none']

/-- Anatomy of a serverless-timeout-cascade hit. -/
theorem matchServerlessTimeoutCascade_some {c : IncidentCluster} {m : PatternMatch}
    (h : matchServerlessTimeoutCascade c = some m) :
    containsSub (strToLower c.triggerEvent.type) "timeout" = true ∧
    c.cascade.any isRetry = true ∧
    m = buildMatch .SERVERLESS_TIMEOUT_CASCADE c.triggerEvent
        (c.triggerEvent ::
          (c.cascade.filter fun event => isRetry event || isRestart event || isExternal429 event))
        (if c.cascade.any isRestart then mkRat 87 100 else mkRat 82 100)
        (.timeoutMeta (c.cascade.filter isRetry).length (c.cascade.any isRestart)) := by
  simp only [matchServerlessTimeoutCascade] at h
  split at h
  · exact Option.noConfusion h
  · next h1 =>
    split at h
    · exact Option.noConfusion h
    · next h2 =>
      simp only [Bool.not_eq_true', Bool.not_eq_false] at h1 h2
      simp only [Option.some.injEq] at h
      exact ⟨h1, h2, h.symm⟩

/-- `List.head` through an equation exposing the cons shape. -/
theorem head_of_cons_eq {α : Type} {l : List α} {a : α} {t : List α}
    (he : l = a :: t) (hl : l ≠ []) : l.head hl = a := by
  subst he; rfl

/-- Anatomy of a retry-storm hit. -/
theorem matchRetryStorm_some {c : IncidentCluster} {m : PatternMatch}
    (h : matchRetryStorm c = some m) :
    ∃ a t, c.cascade.filter (fun event => isRetry event) = a :: t ∧
      m = buildMatch .RETRY_STORM a ((a :: t).take 5) (mkRat 74 100)
        (.retryStormMeta (a :: t).length
          ((groupBy (a :: t) fun event => jobNameOf event).map Prod.fst)) := by
  simp only [matchRetryStorm] at h
  split at h
  · exact Option.noConfusion h
  · next h1 =>
    split at h
    · exact Option.noConfusion h
    · next h2 =>
      cases hr : c.cascade.filter (fun event => isRetry event) with
      | nil => rw [hr] at h1; simp at h1
      | cons a t =>
        refine ⟨a, t, rfl, ?_⟩
        simp only [Option.some.injEq] at h
        rw [← h, head_of_cons_eq hr, hr]

/-- Anatomy of a deploy-failure hit. -/
theorem matchDeployFailure_some {c : IncidentCluster} {m : PatternMatch}
    (h : matchDeployFailure c = some m) :
    ∃ d, (c.triggerEvent :: c.cascade).find?
        (fun event => containsSub (strToLower event.type) "deploy") = some d ∧
      ((c.triggerEvent :: c.cascade).filter fun event =>
        decide (d.timestamp ≤ event.timestamp) && event.severity == Severity.error) ≠ [] ∧
      m = buildMatch .DEPLOY_FAILURE d
        ((c.triggerEvent :: c.cascade).filter fun event =>
          decide (d.timestamp ≤ event.timestamp) && event.severity == Severity.error)
        (mkRat 72 100)
        (.deployMeta d.type
          ((c.triggerEvent :: c.cascade).filter fun event =>
            decide (d.timestamp ≤ event.timestamp) && event.severity == Severity.error).length) := by
  simp only [matchDeployFailure] at h
  split at h
  · exact Option.noConfusion h
  · next d hfind =>
    split at h
    · exact Option.noConfusion h
    · next hlen =>
      simp only [Option.some.injEq] at h
      exact ⟨d, hfind, fun hnil => hlen (by rw [hnil]; rfl), h.symm⟩

/-- Anatomy of a crash-loop hit. -/
theorem matchCrashLoop_some {c : IncidentCluster} {m : PatternMatch}
    (h : matchCrashLoop c = some m) :
    ∃ a t, c.cascade.filter (fun event => isRestart event) = a :: t ∧
      m = buildMatch .CRASH_LOOP a ((a :: t).take 3) (mkRat 66 100)
        (.crashMeta (a :: t).length) := by
  simp only [matchCrashLoop] at h
  split at h
  · exact Option.noConfusion h
  · next h1 =>
    cases hr : c.cascade.filter (fun event => isRestart event) with
    | nil => rw [hr] at h1; simp at h1
    | cons a t =>
      refine ⟨a, t, rfl, ?_⟩
      simp only [Option.some.injEq] at h
      rw [← h, head_of_cons_eq hr, hr]

/-- Every cluster the clusterer emits satisfies the clustering invariant. -/
theorem clusterWellFormed_of_mem (events : List NormalizedEvent) (cl : IncidentCluster)
    (h : cl ∈ buildIncidentClusters events) : ClusterWellFormed cl := by
  simp only [buildIncidentClusters, List.mem_map] at h
  obtain ⟨ev, hev, rfl⟩ := h
  have hsev := (List.mem_filter.mp hev).2
  simp only [Bool.or_eq_true, beq_iff_eq] at hsev
  simp only [ClusterWellFormed]
  dsimp only
  refine ⟨?_, ?_, ?_, ?_, trivial, ?_, ?_⟩
  · rcases hsev with h1 | h1
    · exact Or.inr h1
    · exact Or.inl h1
  · intro e he
    have hq := (List.mem_filter.mp he).2
    simp only [Bool.and_eq_true, decide_eq_true_eq, bne_iff_ne] at hq
    exact ⟨by omega, by omega, hq.2⟩
  · intro hmem
    have hq := (List.mem_filter.mp hmem).2
    simp only [Bool.and_eq_true, decide_eq_true_eq, bne_iff_ne] at hq
    exact hq.2 rfl
  · exact (sortByTimestamp_pairwise events).filter _
  · intro hnil
    rw [hnil]
    rfl
  · intro last hlast
    rw [hlast]

/-! ## Claims -/

/-- **C1**: the Pattern Matcher evaluates the four detectors in the fixed
order (serverless timeout cascade, retry storm, deploy failure, crash loop)
and returns the result of the lowest-numbered rule that fires; the Correlator
scans clusters in their emitted order, returns the report of the first
cluster whose match fires together with the sorted timeline, and returns no
report exactly when no cluster matches. -/
theorem c1_rule_priority_and_first_cluster_wins :
    (∀ c, matchPattern c =
      ((matchServerlessTimeoutCascade c).or ((matchRetryStorm c).or
        ((matchDeployFailure c).or (matchCrashLoop c))))) ∧
    (∀ events r, correlateEvents events = some r →
      matchPattern r.cluster = some r.pmatch ∧
      ∃ i, (buildIncidentClusters events).get? i = some r.cluster ∧
        ∀ j, j < i → ∀ cl, (buildIncidentClusters events).get? j = some cl →
          matchPattern cl = none) ∧
    (∀ events, correlateEvents events = none ↔
      ∀ cl ∈ buildIncidentClusters events, matchPattern cl = none) :=
  ⟨matchPattern_eq,
    fun _ _ h => ⟨(correlateEvents_some h).2.1, (correlateEvents_some h).2.2⟩,
    correlateEvents_eq_none⟩

/-- Witness for C1 at a concrete feed whose single event is `info` severity:
no cluster is emitted, so the correlator returns no report. -/
theorem c1_witness :
    (∀ cl ∈ buildIncidentClusters infoOnlyEvents, matchPattern cl = none) ∧
    correlateEvents infoOnlyEvents = none :=
  ⟨by decide,
    (c1_rule_priority_and_first_cluster_wins.2.2 infoOnlyEvents).mpr (by decide)⟩

/-- **C2**: whenever the Correlator returns a report, its timeline is sorted
non-decreasing by timestamp and is a permutation of the full input feed. -/
theorem c2_timeline_sorted_and_permutation (events : List NormalizedEvent)
    (r : IncidentReport) (h : correlateEvents events = some r) :
    r.timeline.Pairwise (fun a b => a.timestamp ≤ b.timestamp) ∧
    r.timeline.Perm events := by
  obtain ⟨ht, -, -⟩ := correlateEvents_some h
  rw [ht]
  exact ⟨sortByTimestamp_pairwise events, sortByTimestamp_perm events⟩

/-- Witness for C2 on the Scenario A feed. -/
theorem c2_witness :
    correlateEvents scenarioAEvents = some scenarioAReport ∧
    (scenarioAReport.timeline.Pairwise (fun a b => a.timestamp ≤ b.timestamp) ∧
      scenarioAReport.timeline.Perm scenarioAEvents) :=
  ⟨by decide,
    c2_timeline_sorted_and_permutation scenarioAEvents scenarioAReport (by decide)⟩

/-- **C3**: the cluster window constant is 15 minutes and every emitted
cluster satisfies the clustering invariant (`warn`/`error` trigger, cascade
within the inclusive window and excluding the trigger, ascending cascade, and
window endpoints from trigger and last cascade member). -/
theorem c3_clusterer_invariants :
    CLUSTER_WINDOW_MS = 15 * 60 * 1000 ∧
    ∀ events cl, cl ∈ buildIncidentClusters events → ClusterWellFormed cl :=
  ⟨rfl, clusterWellFormed_of_mem⟩

/-- Witness for C3 at the first cluster of the Scenario A feed. -/
theorem c3_witness :
    scenarioACluster ∈ buildIncidentClusters scenarioAEvents ∧
    ClusterWellFormed scenarioACluster :=
  ⟨by decide,
    c3_clusterer_invariants.2 scenarioAEvents scenarioACluster (by decide)⟩

/-- **C4** counterexample: on a cluster the clusterer itself emits, the
deploy-failure rule fires with the deploy event as root cause while the first
(and only) evidence element is the post-deploy error — the evidence does not
start with the root cause. -/
theorem c4_counterexample :
    deployCluster ∈ buildIncidentClusters [evPreDeployCrash, evDeploy, evPostDeployError] ∧
    matchPattern deployCluster = some deployMatchResult ∧
    deployMatchResult.evidence.head? ≠ some deployMatchResult.rootCauseEvent :=
  ⟨by decide, by decide, by decide⟩

/-- **C4** amended: for the serverless-timeout-cascade, retry-storm and
crash-loop rules the first evidence element is the root cause; for the
deploy-failure rule the root cause is the deploy event (its type contains
"deploy") and the evidence is the non-empty set of error-severity events at
or after the deploy, in scan order — which need not start with the deploy
event. -/
theorem c4_amended_evidence_head (c : IncidentCluster) (m : PatternMatch)
    (h : matchPattern c = some m) :
    (m.patternId ≠ PatternId.DEPLOY_FAILURE →
      m.evidence.head? = some m.rootCauseEvent) ∧
    (m.patternId = PatternId.DEPLOY_FAILURE →
      containsSub (strToLower m.rootCauseEvent.type) "deploy" = true ∧
      m.evidence ≠ [] ∧
      m.evidence = (c.triggerEvent :: c.cascade).filter (fun event =>
        decide (m.rootCauseEvent.timestamp ≤ event.timestamp) &&
          event.severity == Severity.error)) := by
  rcases matchPattern_cases h with h1 | h1 | h1 | h1
  · obtain ⟨-, -, rfl⟩ := matchServerlessTimeoutCascade_some h1
    exact ⟨fun _ => rfl, fun hpid => by simp [buildMatch] at hpid⟩
  · obtain ⟨a, t, hr, rfl⟩ := matchRetryStorm_some h1
    exact ⟨fun _ => rfl, fun hpid => by simp [buildMatch] at hpid⟩
  · obtain ⟨d, hfind, hne, rfl⟩ := matchDeployFailure_some h1
    refine ⟨fun hne2 => absurd rfl hne2, fun _ => ⟨?_, hne, rfl⟩⟩
    have hp := List.find?_some hfind
    simpa using hp
  · obtain ⟨a, t, hr, rfl⟩ := matchCrashLoop_some h1
    exact ⟨fun _ => rfl, fun hpid => by simp [buildMatch] at hpid⟩

/-- Witness for the amended C4 at the crash-loop cluster. -/
theorem c4_witness :
    matchPattern crashLoopCluster = some crashLoopMatch ∧
    (crashLoopMatch.patternId ≠ PatternId.DEPLOY_FAILURE →
      crashLoopMatch.evidence.head? = some crashLoopMatch.rootCauseEvent) :=
  ⟨by decide,
    (c4_amended_evidence_head crashLoopCluster crashLoopMatch (by decide)).1⟩

/-- **C5** counterexample: on the Scenario B feed (five `queue.retry` events
for `billing-sync` in a ten-minute span, earliest one `error`) the correlator
does return a retry-storm match with confidence 0.74 and jobs
`["billing-sync"]`, but its metadata records 4 retries, not 5: the earliest
retry is the cluster's trigger and is excluded from its own cascade. -/
theorem c5_counterexample :
    (correlateEvents scenarioBEvents).map
        (fun r => (r.pmatch.patternId, r.pmatch.confidence, r.pmatch.metadata)) =
      some (PatternId.RETRY_STORM, mkRat 74 100,
        MatchMeta.retryStormMeta 4 ["billing-sync"]) ∧
    (correlateEvents scenarioBEvents).map (fun r => r.pmatch.metadata) ≠
      some (MatchMeta.retryStormMeta 5 ["billing-sync"]) :=
  ⟨by decide, by decide⟩

/-- **C5** amended: on the Scenario B feed the correlator returns a
`RETRY_STORM` match with confidence 0.74 whose metadata records retries = 4
(the cascade retries, which exclude the trigger) and jobs `["billing-sync"]`. -/
theorem c5_amended_retry_storm_scenario :
    (correlateEvents scenarioBEvents).map
        (fun r => (r.pmatch.patternId, r.pmatch.confidence, r.pmatch.metadata)) =
      some (PatternId.RETRY_STORM, mkRat 74 100,
        MatchMeta.retryStormMeta 4 ["billing-sync"]) := by
  decide

/-- **C6** counterexample: a feed holding exactly two restart events one
minute apart (and nothing qualifying any higher-priority rule) produces no
report at all: the first restart becomes the trigger and is excluded from its
own cascade, leaving a single cascade restart, below the crash-loop
threshold of 2. -/
theorem c6_counterexample :
    (twoRestartEvents.map fun e => isRestart e) = [true, true] ∧
    evRestartB.timestamp - evRestartA.timestamp = 60000 ∧
    correlateEvents twoRestartEvents = none :=
  ⟨by decide, by decide, by decide⟩

/-- **C6** amended: when the two restarts one minute apart are preceded by a
`warn`/`error` trigger event that qualifies no higher-priority rule, both
restarts land in the trigger's cascade and the correlator returns a
`CRASH_LOOP` match with confidence 0.66. -/
theorem c6_amended_crash_loop_scenario :
    (crashLoopEvents.map fun e => isRestart e) = [false, true, true] ∧
    (correlateEvents crashLoopEvents).map
        (fun r => (r.pmatch.patternId, r.pmatch.confidence)) =
      some (PatternId.CRASH_LOOP, mkRat 66 100) := by
  exact ⟨by decide, by decide⟩

/-- **C7**: the serverless-timeout-cascade rule fires exactly when the
trigger's type contains "timeout" and some cascade event is a retry; when it
fires, the confidence is 0.87 with a cascade restart and 0.82 otherwise, and
the evidence is the trigger followed by every cascade retry, restart or
external 429. On the Scenario A feed the correlator returns that match with
confidence 0.87 and evidence of length 3. -/
theorem c7_serverless_timeout_cascade :
    (∀ c m, matchServerlessTimeoutCascade c = some m →
      containsSub (strToLower c.triggerEvent.type) "timeout" = true ∧
      c.cascade.any isRetry = true ∧
      m.confidence =
        (if c.cascade.any isRestart then mkRat 87 100 else mkRat 82 100) ∧
      m.evidence = c.triggerEvent ::
        (c.cascade.filter fun event =>
          isRetry event || isRestart event || isExternal429 event)) ∧
    (∀ c, containsSub (strToLower c.triggerEvent.type) "timeout" = true →
      c.cascade.any isRetry = true →
      (matchServerlessTimeoutCascade c).isSome = true) ∧
    (correlateEvents scenarioAEvents).map
        (fun r => (r.pmatch.patternId, r.pmatch.confidence, r.pmatch.evidence.length)) =
      some (PatternId.SERVERLESS_TIMEOUT_CASCADE, mkRat 87 100, 3) := by
  refine ⟨?_, ?_, by decide⟩
  · intro c m h
    obtain ⟨h1, h2, rfl⟩ := matchServerlessTimeoutCascade_some h
    exact ⟨h1, h2, rfl, rfl⟩
  · intro c h1 h2
    simp [matchServerlessTimeoutCascade, h1, h2]

/-- Witness for C7 at the Scenario A cluster. -/
theorem c7_witness :
    matchServerlessTimeoutCascade scenarioACluster = some scenarioAReport.pmatch ∧
    (containsSub (strToLower scenarioACluster.triggerEvent.type) "timeout" = true ∧
      scenarioACluster.cascade.any isRetry = true ∧
      scenarioAReport.pmatch.confidence =
        (if scenarioACluster.cascade.any isRestart then mkRat 87 100 else mkRat 82 100) ∧
      scenarioAReport.pmatch.evidence = scenarioACluster.triggerEvent ::
        (scenarioACluster.cascade.filter fun event =>
          isRetry event || isRestart event || isExternal429 event)) :=
  ⟨by decide,
    c7_serverless_timeout_cascade.1 scenarioACluster scenarioAReport.pmatch (by decide)⟩

/-- **C8** counterexample: the claim's keep-rule counts **distinct** matching
terms, but the code counts matching terms with multiplicity. For the query
"abc abc" (two equal extracted terms, so `min(2, 2) = 2` matches required)
and an event whose haystack contains "abc", the code keeps the event while
the distinct-count rule stated by the claim drops it. -/
theorem c8_counterexample :
    extractQueryTerms (jsTrim "abc abc") = ["abc", "abc"] ∧
    filterEventsByQuery [abcEvent] (some "abc abc") = [abcEvent] ∧
    specFilterEventsByQuery [abcEvent] (some "abc abc") = [] :=
  ⟨by decide, by decide, by decide⟩

/-- **C8** amended: for a query whose extracted terms are non-empty, an event
is kept exactly when at least `min(2, number of terms)` of the extracted
terms — counted with multiplicity in the term list — occur in the event's
haystack; kept events preserve their input order. -/
theorem c8_amended_query_filter (events : List NormalizedEvent) (query : String)
    (h : extractQueryTerms (jsTrim query) ≠ []) :
    filterEventsByQuery events (some query) =
      events.filter (fun event =>
        decide (min 2 (extractQueryTerms (jsTrim query)).length ≤
          ((extractQueryTerms (jsTrim query)).filter
            (fun term => containsSub (serializeEvent event) term)).length)) ∧
    List.Sublist (filterEventsByQuery events (some query)) events := by
  have hq : (jsTrim query).data.isEmpty = false := by
    cases hd : (jsTrim query).data with
    | nil =>
      exfalso
      apply h
      unfold extractQueryTerms splitNonAlnum strToLower
      rw [hd]
      rfl
    | cons c cs => rfl
  have hterms : (extractQueryTerms (jsTrim query)).isEmpty = false := by
    cases ht : extractQueryTerms (jsTrim query) with
    | nil => exact absurd ht h
    | cons t ts => rfl
  have heq : filterEventsByQuery events (some query) =
      events.filter (fun event =>
        decide (min 2 (extractQueryTerms (jsTrim query)).length ≤
          ((extractQueryTerms (jsTrim query)).filter
            (fun term => containsSub (serializeEvent event) term)).length)) := by
    simp only [filterEventsByQuery, Option.map_some', hq, hterms,
      Bool.false_eq_true, if_false]
  exact ⟨heq, heq ▸ List.filter_sublist events⟩

/-- Witness for the amended C8 at the single-`abc`-haystack event and the
two-term query "lambda error". -/
theorem c8_witness :
    extractQueryTerms (jsTrim "lambda error") ≠ [] ∧
    List.Sublist (filterEventsByQuery [abcEvent] (some "lambda error")) [abcEvent] :=
  ⟨by decide, (c8_amended_query_filter [abcEvent] "lambda error" (by decide)).2⟩

/-- **C9**: the correlation core is deterministic — it is a pure function of
the event feed alone (no clock or randomness input exists in the embedding),
so equal feeds produce identical reports in every component. -/
theorem c9_deterministic (e1 e2 : List NormalizedEvent) (h : e1 = e2) :
    correlateEvents e1 = correlateEvents e2 ∧
    ∀ r1 r2, correlateEvents e1 = some r1 → correlateEvents e2 = some r2 →
      r1.cluster = r2.cluster ∧ r1.pmatch.patternId = r2.pmatch.patternId ∧
      r1.pmatch.confidence = r2.pmatch.confidence ∧
      r1.pmatch.rootCauseEvent = r2.pmatch.rootCauseEvent ∧
      r1.pmatch.evidence = r2.pmatch.evidence ∧
      r1.pmatch.metadata = r2.pmatch.metadata ∧
      r1.timeline = r2.timeline := by
  subst h
  refine ⟨rfl, ?_⟩
  intro r1 r2 h1 h2
  rw [h1] at h2
  cases h2
  exact ⟨rfl, rfl, rfl, rfl, rfl, rfl, rfl⟩

/-- Witness for C9: two runs on the Scenario A feed. -/
theorem c9_witness :
    correlateEvents scenarioAEvents = correlateEvents scenarioAEvents ∧
    scenarioAReport.cluster = scenarioAReport.cluster :=
  ⟨(c9_deterministic scenarioAEvents scenarioAEvents rfl).1,
    ((c9_deterministic scenarioAEvents scenarioAEvents rfl).2 scenarioAReport
      scenarioAReport (by decide) (by decide)).1⟩

/-- **C10**: neither entry point mutates the caller's array — in the explicit
mutation model both return the caller's array unchanged (each sorts a spread
copy), while computing the same result as the pure embedding. -/
theorem c10_inputs_not_mutated (events : List NormalizedEvent) :
    (buildIncidentClustersProc events).2 = events ∧
    (correlateEventsProc events).2 = events ∧
    (buildIncidentClustersProc events).1 = buildIncidentClusters events ∧
    (correlateEventsProc events).1 = correlateEvents events :=
  ⟨rfl, rfl, rfl, rfl⟩
